import Mathlib

/-!
Verification development for the wind-service repository.

The definitions below are shallow embeddings of the corresponding Python
functions:
  * `src/app/tools/polling.py` — poller state, persistence, cycle rollover,
    the per-family download step and the loop-exit decision;
  * `src/app/services/process_weather_data.py` — GRIB handle reload,
    readiness check and bounding-box slicing;
  * `src/app/services/process_wind_data.py`, `process_wave_data.py` —
    point-record construction and the wind-speed computation;
  * `src/app/main.py`, `src/app/models/schemas.py` — the wind endpoint's
    error taxonomy and bounding-box validation.

Coordinates and measurement magnitudes are modelled over `ℚ` where the code
only compares and shifts them, and over `ℝ` where the code takes square
roots; Python float NaN is modelled by a dedicated constructor of `FV`.
-/

/-! ## Poller state (`src/app/tools/polling.py`) -/

/-- Python's `str.startswith`, over the character sequence of the string. -/
def strStartsWith (s pre : String) : Bool :=
  pre.data.isPrefixOf s.data

/-- In-memory poller state carried across iterations of `poll_gfs_data`
(`latest_date`, `latest_cycle`, `downloaded_atmos_files`,
`downloaded_wave_files`). -/
structure PollState where
  latestDate : Option String
  latestCycle : Option String
  downloadedAtmosFiles : Finset String
  downloadedWaveFiles : Finset String
  deriving DecidableEq

/-- The state file contents written by `save_state` (polling.py lines 71-82):
the two download sets are serialised as sorted lists, together with the date,
cycle, downloading flag and timestamp. -/
structure SavedState where
  latestDate : Option String
  latestCycle : Option String
  downloadedAtmosFiles : List String
  downloadedWaveFiles : List String
  isDownloading : Bool
  lastUpdate : String
  deriving DecidableEq

/-- Embeds `save_state` (polling.py lines 71-82): sets are written out as
sorted lists, `last_update` is the current wall-clock timestamp. -/
def save_state (latestDate latestCycle : Option String)
    (downloadedAtmosFiles downloadedWaveFiles : Finset String)
    (isDownloading : Bool) (now : String) : SavedState :=
  { latestDate := latestDate
    latestCycle := latestCycle
    downloadedAtmosFiles := downloadedAtmosFiles.sort (· ≤ ·)
    downloadedWaveFiles := downloadedWaveFiles.sort (· ≤ ·)
    isDownloading := isDownloading
    lastUpdate := now }

/-- Embeds `load_state` (polling.py lines 55-69) applied to an existing state
file: returns the stored date, cycle, the two file lists read back as sets,
the downloading flag and the timestamp. -/
def load_state (s : SavedState) :
    Option String × Option String × Finset String × Finset String × Bool × Option String :=
  (s.latestDate, s.latestCycle, s.downloadedAtmosFiles.toFinset,
    s.downloadedWaveFiles.toFinset, s.isDownloading, some s.lastUpdate)

/-- Embeds the cycle-rollover branch of `poll_gfs_data`
(polling.py lines 235-249): when the newly discovered maximal cycle differs
from the remembered one, the remembered cycle is replaced and each download
set is filtered with `not f.startswith(f"gfs.{cycle_time}")` (resp.
`gfswave.`) where `cycle_time = f"t{latest_cycle}z"` is built from the NEW
cycle. -/
def cycleRolloverStep (s : PollState) (newCycle : String) : PollState :=
  if some newCycle ≠ s.latestCycle then
    let cycleTime := "t" ++ newCycle ++ "z"
    { s with
      latestCycle := some newCycle
      downloadedAtmosFiles :=
        s.downloadedAtmosFiles.filter (fun f => ¬ strStartsWith f ("gfs." ++ cycleTime))
      downloadedWaveFiles :=
        s.downloadedWaveFiles.filter (fun f => ¬ strStartsWith f ("gfswave." ++ cycleTime)) }
  else s

/-- Observable side effects of one pass of the per-family body of the download
loop in `poll_gfs_data` (polling.py lines 251-277), in program order. -/
inductive PollEvent where
  | downloadFile (file : String)
  | addDownloaded (file : String)
  | publishRegistry (family : String) (file : String)
  | persistState
  deriving DecidableEq

/-- Embeds the per-family download body of `poll_gfs_data`
(polling.py lines 266-277): when the target file is listed remotely and not
yet recorded as downloaded, the code downloads it, adds it to
`downloaded_files`, publishes it to `gribs.json` via `update_gribs_json`, and
then calls `save_state`; otherwise nothing happens.  Returns the updated
download set together with the emitted side effects in program order. -/
def familyDownloadStep (family : String) (downloadedFiles availableFiles : Finset String)
    (targetFile : String) : Finset String × List PollEvent :=
  if targetFile ∈ availableFiles ∧ targetFile ∉ downloadedFiles then
    (insert targetFile downloadedFiles,
      [PollEvent.downloadFile targetFile,
       PollEvent.addDownloaded targetFile,
       PollEvent.publishRegistry family targetFile,
       PollEvent.persistState])
  else (downloadedFiles, [])

/-- Outcome of the tail of one iteration of the `while` loop in
`poll_gfs_data`. -/
inductive LoopOutcome where
  | exitLoop
  | nextIteration
  deriving DecidableEq

/-- Embeds the loop-exit decision at the tail of each iteration of
`poll_gfs_data` (polling.py lines 279-296): if both targets are in their
download sets the loop `break`s; else if the wall clock passed the timeout the
loop `break`s; else the loop waits on the stop event and `break`s exactly when
it was set, otherwise it continues. -/
def iterationOutcome (downloadedAtmosFiles downloadedWaveFiles : Finset String)
    (atmosTargetFile waveTargetFile : String)
    (timedOut stopRequested : Bool) : LoopOutcome :=
  if atmosTargetFile ∈ downloadedAtmosFiles ∧ waveTargetFile ∈ downloadedWaveFiles then
    LoopOutcome.exitLoop
  else if timedOut then LoopOutcome.exitLoop
  else if stopRequested then LoopOutcome.exitLoop
  else LoopOutcome.nextIteration

/-! ## Theorems about the poller -/

/-- C1 counterexample. `poll_gfs_data` remembers cycle `06` with the hour-0
atmos file of that cycle recorded as downloaded; the poller then discovers the
new cycle `12`.  After the rollover step the persisted set still contains the
entry `gfs.t06z.pgrb2.0p25.f000`, which carries the old cycle's naming
prefix `gfs.t06z` — the purge filters on the NEW cycle's prefix, so stale
entries from the old cycle survive and the set does not only contain files of
the current cycle. -/
theorem cycleRolloverStep_keeps_old_cycle_entry :
    "gfs.t06z.pgrb2.0p25.f000" ∈
      (cycleRolloverStep
        { latestDate := some "gfs.20250101", latestCycle := some "06"
          downloadedAtmosFiles := {"gfs.t06z.pgrb2.0p25.f000"}
          downloadedWaveFiles := ∅ } "12").downloadedAtmosFiles ∧
    strStartsWith "gfs.t06z.pgrb2.0p25.f000" "gfs.t06z" = true ∧
    (cycleRolloverStep
        { latestDate := some "gfs.20250101", latestCycle := some "06"
          downloadedAtmosFiles := {"gfs.t06z.pgrb2.0p25.f000"}
          downloadedWaveFiles := ∅ } "12").latestCycle = some "12" := by
  decide

/-- C1 (amended): after a genuine cycle rollover (the discovered cycle differs
from the remembered one), the download sets contain zero entries carrying the
NEW cycle's naming prefix (`gfs.t{new}z` / `gfswave.t{new}z`); entries from
the old cycle are NOT purged. -/
theorem cycleRolloverStep_purges_new_cycle_entries (s : PollState) (newCycle : String)
    (h : some newCycle ≠ s.latestCycle) :
    (∀ f ∈ (cycleRolloverStep s newCycle).downloadedAtmosFiles,
        strStartsWith f ("gfs." ++ "t" ++ newCycle ++ "z") = false) ∧
    (∀ f ∈ (cycleRolloverStep s newCycle).downloadedWaveFiles,
        strStartsWith f ("gfswave." ++ "t" ++ newCycle ++ "z") = false) := by
  unfold cycleRolloverStep
  rw [if_pos h]
  constructor
  · intro f hf
    have := (Finset.mem_filter.mp hf).2
    simpa using this
  · intro f hf
    have := (Finset.mem_filter.mp hf).2
    simpa using this

/-- Witness for `cycleRolloverStep_purges_new_cycle_entries` at a concrete
rollover from cycle `06` to cycle `12`. -/
theorem cycleRolloverStep_purges_new_cycle_entries_witness :
    strStartsWith "gfs.t06z.pgrb2.0p25.f000" ("gfs." ++ "t" ++ "12" ++ "z") = false :=
  (cycleRolloverStep_purges_new_cycle_entries
      { latestDate := some "gfs.20250101", latestCycle := some "06"
        downloadedAtmosFiles := {"gfs.t06z.pgrb2.0p25.f000"}
        downloadedWaveFiles := ∅ } "12" (by decide)).1
    "gfs.t06z.pgrb2.0p25.f000" (by decide)

/-- C2 counterexample. With nothing downloaded yet and the atmos hour-0 target
listed remotely, the per-family download body emits its side effects in the
order download → add-to-`downloaded_files` → registry publish → persist: the
filename is added to the set at position 1 of the trace, strictly BEFORE the
registry publish at position 2, so the filename is in `downloadedFiles` before
the corresponding publish has happened. -/
theorem familyDownloadStep_adds_before_publish :
    (familyDownloadStep "Atmos" ∅ {"gfs.t06z.pgrb2.0p25.f000"}
        "gfs.t06z.pgrb2.0p25.f000").2.indexOf
      (PollEvent.addDownloaded "gfs.t06z.pgrb2.0p25.f000") = 1 ∧
    (familyDownloadStep "Atmos" ∅ {"gfs.t06z.pgrb2.0p25.f000"}
        "gfs.t06z.pgrb2.0p25.f000").2.indexOf
      (PollEvent.publishRegistry "Atmos" "gfs.t06z.pgrb2.0p25.f000") = 2 ∧
    "gfs.t06z.pgrb2.0p25.f000" ∈
      (familyDownloadStep "Atmos" ∅ {"gfs.t06z.pgrb2.0p25.f000"}
        "gfs.t06z.pgrb2.0p25.f000").1 := by
  decide

/-- C2 (amended): in every execution of the per-family download body in which
a download happens (target listed remotely and not yet downloaded), the side
effects occur in the order download, THEN addition of the filename to
`downloadedFiles`, THEN the registry publish, THEN state persistence — i.e.
the filename is added to the in-memory set before the publish, and the state
is persisted only after the publish has completed. -/
theorem familyDownloadStep_event_order (family : String)
    (downloadedFiles availableFiles : Finset String) (targetFile : String)
    (h : targetFile ∈ availableFiles ∧ targetFile ∉ downloadedFiles) :
    (familyDownloadStep family downloadedFiles availableFiles targetFile).2 =
      [PollEvent.downloadFile targetFile,
       PollEvent.addDownloaded targetFile,
       PollEvent.publishRegistry family targetFile,
       PollEvent.persistState] ∧
    (familyDownloadStep family downloadedFiles availableFiles targetFile).1 =
      insert targetFile downloadedFiles := by
  unfold familyDownloadStep
  rw [if_pos h]
  exact ⟨rfl, rfl⟩

/-- Witness for `familyDownloadStep_event_order` at the concrete cycle-06
atmos target with an empty download set. -/
theorem familyDownloadStep_event_order_witness :
    (familyDownloadStep "Atmos" ∅ {"gfs.t06z.pgrb2.0p25.f000"}
        "gfs.t06z.pgrb2.0p25.f000").2 =
      [PollEvent.downloadFile "gfs.t06z.pgrb2.0p25.f000",
       PollEvent.addDownloaded "gfs.t06z.pgrb2.0p25.f000",
       PollEvent.publishRegistry "Atmos" "gfs.t06z.pgrb2.0p25.f000",
       PollEvent.persistState] :=
  (familyDownloadStep_event_order "Atmos" ∅ {"gfs.t06z.pgrb2.0p25.f000"}
    "gfs.t06z.pgrb2.0p25.f000" (by decide)).1

/-- C3 counterexample. When both families' hour-0 target files for the current
cycle are in the download sets and neither the timeout nor the stop signal is
set, the iteration exits the polling loop (`break`), and likewise when only
the timeout has passed — so completing the cycle terminates the loop instead
of polling for the next cycle, and the timeout terminates the loop instead of
falling back to the polling cadence. -/
theorem iterationOutcome_exits_on_completion_and_timeout :
    iterationOutcome {"gfs.t06z.pgrb2.0p25.f000"} {"gfswave.t06z.global.0p16.f000.grib2"}
        "gfs.t06z.pgrb2.0p25.f000" "gfswave.t06z.global.0p16.f000.grib2" false false =
      LoopOutcome.exitLoop ∧
    iterationOutcome ∅ ∅ "gfs.t06z.pgrb2.0p25.f000" "gfswave.t06z.global.0p16.f000.grib2"
        true false = LoopOutcome.exitLoop := by
  decide

/-- C3 (amended): the polling loop proceeds to another iteration exactly when
the current cycle is incomplete, the timeout ceiling has not passed, and the
stop signal is not set; completing both families' downloads terminates the
loop, and so does reaching the timeout ceiling. -/
theorem iterationOutcome_next_iff (downloadedAtmosFiles downloadedWaveFiles : Finset String)
    (atmosTargetFile waveTargetFile : String) (timedOut stopRequested : Bool) :
    iterationOutcome downloadedAtmosFiles downloadedWaveFiles atmosTargetFile waveTargetFile
        timedOut stopRequested = LoopOutcome.nextIteration ↔
      ¬(atmosTargetFile ∈ downloadedAtmosFiles ∧ waveTargetFile ∈ downloadedWaveFiles) ∧
        timedOut = false ∧ stopRequested = false := by
  unfold iterationOutcome
  split
  · rename_i hdone
    simp [hdone]
  · rename_i hdone
    cases timedOut <;> cases stopRequested <;> simp [hdone]

/-- C10: saving the poller state and loading it back returns the identical
date, cycle, both downloaded-file sets (which survive the round trip through
sorted lists), the downloading flag, and the saved timestamp. -/
theorem load_state_save_state_roundtrip (latestDate latestCycle : Option String)
    (downloadedAtmosFiles downloadedWaveFiles : Finset String)
    (isDownloading : Bool) (now : String) :
    load_state (save_state latestDate latestCycle downloadedAtmosFiles downloadedWaveFiles
        isDownloading now) =
      (latestDate, latestCycle, downloadedAtmosFiles, downloadedWaveFiles,
        isDownloading, some now) := by
  unfold load_state save_state
  simp [Finset.sort_toFinset]

/-! ## Bounding-box slicing
(`ProcessWeatherData._slice_data_to_bounding_box`,
`src/app/services/process_weather_data.py` lines 84-113).

The grid is modelled by the latitude column `lats_full[:, 0]`, the longitude
row `lons_full[0, :]` (exactly the 1-D coordinate vectors the source indexes
into) and the 2-D data field as a list of rows. -/

/-- Failure of the slice step: the source raises
`ValueError("No data within the specified bounding box")` when either index
range is empty. -/
inductive SliceError where
  | emptyRegion
  deriving DecidableEq

/-- Result triple `(sliced_data, sliced_lats, sliced_lons)`. -/
structure SliceResult where
  data : List (List ℚ)
  lats : List ℚ
  lons : List ℚ
  deriving DecidableEq

/-- The longitude conversion at the top of `_slice_data_to_bounding_box`:
`min_lon + 360 if min_lon < 0 else min_lon` (same for the max bound). -/
def toGfsLon (lon : ℚ) : ℚ := if lon < 0 then lon + 360 else lon

/-- The element-wise back conversion `np.where(lons > 180, lons - 360, lons)`
applied to the sliced longitudes before returning. -/
def convertLonBack (lon : ℚ) : ℚ := if 180 < lon then lon - 360 else lon

/-- Indices whose coordinate lies within `[lo, hi]` inclusive — the
`np.where((coords >= lo) & (coords <= hi))[0]` computation of the source. -/
def rangeIndices (coords : List ℚ) (lo hi : ℚ) : List Nat :=
  (List.range coords.length).filter
    (fun i => decide (lo ≤ coords.getD i 0 ∧ coords.getD i 0 ≤ hi))

/-- The contiguous block `l[i : j + 1]` taken by the source between the first
and last matching index. -/
def sliceRange (l : List α) (i j : Nat) : List α :=
  (l.drop i).take (j + 1 - i)

/-- Embeds `_slice_data_to_bounding_box`: convert the longitude bounds to the
grid's 0-360 convention, find the index ranges along each axis, fail when
either is empty, slice the contiguous block bounded by the first and last
matching index on each axis, and convert the output longitudes back to the
-180..180 convention. -/
def sliceDataToBoundingBox (dataFull : List (List ℚ)) (latsFull lonsFull : List ℚ)
    (minLat maxLat minLon maxLon : ℚ) : Except SliceError SliceResult :=
  let minLonGfs := toGfsLon minLon
  let maxLonGfs := toGfsLon maxLon
  let latIndices := rangeIndices latsFull minLat maxLat
  let lonIndices := rangeIndices lonsFull minLonGfs maxLonGfs
  if latIndices = [] ∨ lonIndices = [] then Except.error SliceError.emptyRegion
  else
    let i0 := latIndices.headD 0
    let i1 := latIndices.getLastD 0
    let j0 := lonIndices.headD 0
    let j1 := lonIndices.getLastD 0
    Except.ok
      { data := (sliceRange dataFull i0 i1).map (fun row => sliceRange row j0 j1)
        lats := sliceRange latsFull i0 i1
        lons := (sliceRange lonsFull j0 j1).map convertLonBack }

/-! Helper lemmas about `rangeIndices` and `sliceRange`. -/

theorem mem_rangeIndices {coords : List ℚ} {lo hi : ℚ} {i : Nat} :
    i ∈ rangeIndices coords lo hi ↔
      i < coords.length ∧ lo ≤ coords.getD i 0 ∧ coords.getD i 0 ≤ hi := by
  simp [rangeIndices, List.mem_filter, List.mem_range, and_assoc]

theorem rangeIndices_pairwise (coords : List ℚ) (lo hi : ℚ) :
    (rangeIndices coords lo hi).Pairwise (· < ·) :=
  List.Pairwise.filter _ (List.pairwise_lt_range _)

theorem headD_mem {α : Type} (d : α) {l : List α} (h : l ≠ []) : l.headD d ∈ l := by
  cases l with
  | nil => exact absurd rfl h
  | cons a t => exact List.mem_cons_self a t

theorem getLastD_mem {l : List Nat} (h : l ≠ []) : l.getLastD 0 ∈ l := by
  rw [List.getLastD_eq_getLast?, List.getLast?_eq_getLast l h]
  exact List.getLast_mem h

theorem headD_le_of_mem {l : List Nat} (hs : l.Pairwise (· < ·)) {i : Nat} (hi : i ∈ l) :
    l.headD 0 ≤ i := by
  cases l with
  | nil => cases hi
  | cons a t =>
    rcases List.mem_cons.mp hi with rfl | hmem
    · exact Nat.le_refl _
    · exact Nat.le_of_lt ((List.pairwise_cons.mp hs).1 _ hmem)

theorem le_getLastD_of_mem {l : List Nat} (hs : l.Pairwise (· < ·)) {i : Nat} (hi : i ∈ l) :
    i ≤ l.getLastD 0 := by
  obtain ⟨k, hk, rfl⟩ := List.getElem_of_mem hi
  have hne : l ≠ [] := List.ne_nil_of_length_pos (Nat.lt_of_le_of_lt (Nat.zero_le _) hk)
  rw [List.getLastD_eq_getLast?, List.getLast?_eq_getLast l hne, List.getLast_eq_getElem]
  rcases Nat.lt_or_ge k (l.length - 1) with hlt | hge
  · exact Nat.le_of_lt (List.pairwise_iff_getElem.mp hs k (l.length - 1) hk (by omega) hlt)
  · have hkeq : k = l.length - 1 := by omega
    subst hkeq
    exact Nat.le_refl _


theorem mem_sliceRange {l : List ℚ} {i j : Nat} {x : ℚ} (hx : x ∈ sliceRange l i j) :
    ∃ k, i ≤ k ∧ k ≤ j ∧ k < l.length ∧ l.getD k 0 = x := by
  obtain ⟨m, hm, hval⟩ := List.getElem_of_mem hx
  have hmlen : m < (j + 1 - i) := by
    have := hm
    simp only [sliceRange, List.length_take, List.length_drop] at this
    omega
  have hdrop : m < (l.drop i).length := by
    have := hm
    simp only [sliceRange, List.length_take, List.length_drop] at this ⊢
    omega
  have hklen : i + m < l.length := by
    simp only [List.length_drop] at hdrop
    omega
  refine ⟨i + m, Nat.le_add_right _ _, by omega, hklen, ?_⟩
  have : (sliceRange l i j)[m] = l[i + m] := by
    simp [sliceRange]
  rw [this] at hval
  rw [List.getD_eq_getElem?_getD, List.getElem?_eq_getElem hklen]
  exact hval

theorem getD_mono_of_pairwise {l : List ℚ} (hs : l.Pairwise (· ≤ ·)) {a b : Nat}
    (hab : a ≤ b) (hb : b < l.length) : l.getD a 0 ≤ l.getD b 0 := by
  have ha : a < l.length := Nat.lt_of_le_of_lt hab hb
  rw [List.getD_eq_getElem?_getD, List.getElem?_eq_getElem ha,
    List.getD_eq_getElem?_getD, List.getElem?_eq_getElem hb]
  rcases Nat.lt_or_ge a b with hlt | hge
  · exact List.pairwise_iff_getElem.mp hs a b ha hb hlt
  · have : a = b := by omega
    subst this
    exact le_refl _

theorem sliceRange_ne_nil {l : List ℚ} {i j : Nat} (hi : i < l.length) (hij : i ≤ j) :
    sliceRange l i j ≠ [] := by
  rw [← List.length_pos]
  simp only [sliceRange, List.length_take, List.length_drop]
  omega

/-- C6: when no grid point falls inside the box along at least one axis (after
the longitude bounds are converted to the grid's 0-360 convention), the slice
step fails with the distinguishable empty-region error; and a successful slice
never returns empty coordinate vectors silently. -/
theorem sliceDataToBoundingBox_empty_region (dataFull : List (List ℚ))
    (latsFull lonsFull : List ℚ) (minLat maxLat minLon maxLon : ℚ) :
    ((∀ x ∈ latsFull, x < minLat ∨ maxLat < x) ∨
        (∀ x ∈ lonsFull, x < toGfsLon minLon ∨ toGfsLon maxLon < x) →
      sliceDataToBoundingBox dataFull latsFull lonsFull minLat maxLat minLon maxLon =
        Except.error SliceError.emptyRegion) ∧
    (∀ r, sliceDataToBoundingBox dataFull latsFull lonsFull minLat maxLat minLon maxLon =
        Except.ok r → r.lats ≠ [] ∧ r.lons ≠ []) := by
  constructor
  · intro h
    have hempty : rangeIndices latsFull minLat maxLat = [] ∨
        rangeIndices lonsFull (toGfsLon minLon) (toGfsLon maxLon) = [] := by
      rcases h with h | h
      · left
        simp only [rangeIndices, List.filter_eq_nil_iff, List.mem_range, decide_eq_true_eq]
        intro i hi hcontra
        have hx := h (latsFull.getD i 0) (by
          rw [List.getD_eq_getElem?_getD, List.getElem?_eq_getElem hi]
          exact List.getElem_mem hi)
        rcases hx with hx | hx
        · exact absurd hcontra.1 (not_le.mpr hx)
        · exact absurd hcontra.2 (not_le.mpr hx)
      · right
        simp only [rangeIndices, List.filter_eq_nil_iff, List.mem_range, decide_eq_true_eq]
        intro i hi hcontra
        have hx := h (lonsFull.getD i 0) (by
          rw [List.getD_eq_getElem?_getD, List.getElem?_eq_getElem hi]
          exact List.getElem_mem hi)
        rcases hx with hx | hx
        · exact absurd hcontra.1 (not_le.mpr hx)
        · exact absurd hcontra.2 (not_le.mpr hx)
    unfold sliceDataToBoundingBox
    simp only [hempty, if_pos]
  · intro r hr
    unfold sliceDataToBoundingBox at hr
    dsimp only at hr
    split at hr
    · exact absurd hr (by simp)
    · rename_i hne
      push_neg at hne
      obtain ⟨hlat, hlon⟩ := hne
      injection hr with h
      subst h
      constructor
      · apply sliceRange_ne_nil
        · exact (mem_rangeIndices.mp (headD_mem 0 hlat)).1
        · exact le_getLastD_of_mem (rangeIndices_pairwise _ _ _) (headD_mem 0 hlat)
      · intro hcontra
        have hmapnil := List.map_eq_nil_iff.mp hcontra
        exact absurd hmapnil
          (sliceRange_ne_nil (mem_rangeIndices.mp (headD_mem 0 hlon)).1
            (le_getLastD_of_mem (rangeIndices_pairwise _ _ _) (headD_mem 0 hlon)))

/-- Witness for `sliceDataToBoundingBox_empty_region`: a bounding box entirely
above the grid's latitude coverage (`min_lat = 95`) makes the slice fail with
the empty-region error, and the successful slice of an in-coverage box has
nonempty coordinate output. -/
theorem sliceDataToBoundingBox_empty_region_witness :
    sliceDataToBoundingBox [[1, 2], [3, 4]] [0, 1] [30, 31] 95 100 30 31 =
      Except.error SliceError.emptyRegion := by
  exact (sliceDataToBoundingBox_empty_region [[1, 2], [3, 4]] [0, 1] [30, 31] 95 100 30 31).1
    (Or.inl (by decide))

/-- C5 counterexample. Bounding box `minLon = -180, maxLon = -179` (valid and
with `minLon < 0`) over the monotone 0-360-convention grid longitudes
`[180, 181]`: the slice succeeds and returns output longitudes `[180, -179]`.
The value `180` — a grid point lying exactly on the converted lower bound
`-180 + 360 = 180`, which the back conversion `lon > 180 → lon - 360` leaves
unconverted — is NOT within `[minLon, maxLon] = [-180, -179]`, refuting the
claim that all output longitudes lie within the box. -/
theorem sliceDataToBoundingBox_lon180_outside_box :
    sliceDataToBoundingBox [[1, 2]] [0] [180, 181] (-1) 1 (-180) (-179) =
      Except.ok { data := [[1, 2]], lats := [0], lons := [180, -179] } ∧
    ¬((180 : ℚ) ≤ -179) := by
  constructor
  · have h1 : toGfsLon (-180) = 180 := by norm_num [toGfsLon]
    have h2 : toGfsLon (-179) = 181 := by norm_num [toGfsLon]
    have h3 : rangeIndices [180, 181] 180 181 = [0, 1] := by decide
    have h4 : rangeIndices [0] (-1) 1 = [0] := by decide
    simp only [sliceDataToBoundingBox, h1, h2, h3, h4]
    norm_num [sliceRange, convertLonBack]
    intro hcontra
    simp at hcontra
  · norm_num

/-- C5 (amended): for every bounding box with `-180 < minLon < 0` (strictly
above -180) and `maxLon ≤ 180`, over a grid whose longitudes increase
monotonically, a successful slice returns only longitudes within
`[minLon, maxLon]`, all of them within `[-180, 180]`.  (At `minLon = -180`
exactly, a grid point at native longitude 180 can be returned unconverted and
fall outside the box, as the counterexample shows.) -/
theorem sliceDataToBoundingBox_lons_within_bbox
    (dataFull : List (List ℚ)) (latsFull lonsFull : List ℚ)
    (minLat maxLat minLon maxLon : ℚ)
    (hmono : lonsFull.Pairwise (· ≤ ·))
    (hlow : -180 < minLon) (hneg : minLon < 0) (hmax : maxLon ≤ 180)
    (r : SliceResult)
    (hok : sliceDataToBoundingBox dataFull latsFull lonsFull minLat maxLat minLon maxLon =
      Except.ok r) :
    ∀ lon ∈ r.lons, (minLon ≤ lon ∧ lon ≤ maxLon) ∧ (-180 ≤ lon ∧ lon ≤ 180) := by
  unfold sliceDataToBoundingBox at hok
  dsimp only at hok
  split at hok
  · exact absurd hok (by simp)
  · rename_i hne
    push_neg at hne
    obtain ⟨hlat, hlon⟩ := hne
    injection hok with h
    subst h
    intro lon hmem
    dsimp only at hmem
    obtain ⟨l', hl', rfl⟩ := List.mem_map.mp hmem
    obtain ⟨k, hj0k, hkj1, hk, hval⟩ := mem_sliceRange hl'
    have hj0 := mem_rangeIndices.mp (headD_mem 0 hlon)
    have hj1 := mem_rangeIndices.mp (getLastD_mem hlon)
    have hminb : toGfsLon minLon ≤ lonsFull.getD k 0 :=
      le_trans hj0.2.1 (getD_mono_of_pairwise hmono hj0k hk)
    have hmaxb : lonsFull.getD k 0 ≤ toGfsLon maxLon :=
      le_trans (getD_mono_of_pairwise hmono hkj1 hj1.1) hj1.2.2
    rw [hval] at hminb hmaxb
    have hminG : toGfsLon minLon = minLon + 360 := by
      simp [toGfsLon, if_pos hneg]
    rw [hminG] at hminb
    rcases lt_or_ge maxLon 0 with hmneg | hmpos
    · have hmaxG : toGfsLon maxLon = maxLon + 360 := by
        simp [toGfsLon, if_pos hmneg]
      rw [hmaxG] at hmaxb
      have hgt : (180 : ℚ) < l' := by linarith
      have hconv : convertLonBack l' = l' - 360 := by
        simp [convertLonBack, if_pos hgt]
      rw [hconv]
      constructor
      · constructor <;> linarith
      · constructor <;> linarith
    · have hmaxG : toGfsLon maxLon = maxLon := by
        unfold toGfsLon
        rw [if_neg (not_lt.mpr hmpos)]
      rw [hmaxG] at hmaxb
      exfalso
      linarith

/-- Witness for `sliceDataToBoundingBox_lons_within_bbox`: end-to-end
scenario, grid longitudes `[280, 300]` (native 0-360 for -80..-60), box
`minLon = -80, maxLon = -60`; the first output longitude `-80` lies within
the box and within `[-180, 180]`. -/
theorem sliceDataToBoundingBox_lons_within_bbox_witness :
    ((-80 : ℚ) ≤ -80 ∧ (-80 : ℚ) ≤ -60) ∧ ((-180 : ℚ) ≤ -80 ∧ (-80 : ℚ) ≤ 180) := by
  have hok : sliceDataToBoundingBox [[5, 7]] [40] [280, 300] 30 50 (-80) (-60) =
      Except.ok { data := [[5, 7]], lats := [40], lons := [-80, -60] } := by
    have h1 : toGfsLon (-80) = 280 := by norm_num [toGfsLon]
    have h2 : toGfsLon (-60) = 300 := by norm_num [toGfsLon]
    have h3 : rangeIndices [280, 300] 280 300 = [0, 1] := by decide
    have h4 : rangeIndices [40] 30 50 = [0] := by decide
    simp only [sliceDataToBoundingBox, h1, h2, h3, h4]
    norm_num [sliceRange, convertLonBack]
    intro hcontra
    simp at hcontra
  have hres := sliceDataToBoundingBox_lons_within_bbox [[5, 7]] [40] [280, 300] 30 50
    (-80) (-60) (by norm_num [List.pairwise_cons]) (by norm_num) (by norm_num) (by norm_num)
    { data := [[5, 7]], lats := [40], lons := [-80, -60] } hok (-80) (by simp)
  exact hres

/-! ## GRIB dataset handles
(`ProcessWeatherData`, `src/app/services/process_weather_data.py`). -/

/-- A registry record for one data family (`gribs.json` entry): the local
path and the download timestamp. -/
structure GribFile where
  path : String
  downloadTime : String
  deriving DecidableEq

/-- The registry contents read by `load_gribs_metadata`: at most one record
per data family. -/
structure GribsData where
  atmos : Option GribFile
  wave : Option GribFile
  deriving DecidableEq

/-- Embeds `ProcessWeatherData._select_latest_grib_files`
(process_weather_data.py lines 71-78): returns both records when an
atmospheric record exists, otherwise `(None, None)`. -/
def selectLatestGribFiles (g : GribsData) : Option GribFile × Option GribFile :=
  match g.atmos with
  | some a => (some a, g.wave)
  | none => (none, none)

/-- Runtime state of a `ProcessWeatherData` instance.  The source holds ONE
handle attribute: both `__init__` (lines 26-27) and both open statements in
`_reload_grib_files` (lines 63 and 66) assign `self._wave_grib`, so `waveGrib`
is the single open-handle slot, recorded here as the path the handle was
opened on (`none` = no open handle). -/
structure HandleState where
  waveGrib : Option String
  atmosGribFileData : Option GribFile
  waveGribFileData : Option GribFile
  deriving DecidableEq

/-- Embeds `ProcessWeatherData._reload_grib_files`
(process_weather_data.py lines 47-69).  The body first closes any open handle
and clears the slot (lines 50-56), then re-reads the registry metadata, then
opens the atmospheric path and then the wave path, each into the single
handle slot.  `openOk p` tells whether `pygrib.open(p)` succeeds; a failed
open raises, and the surrounding `try`/`except` catches and logs it, leaving
the state as already mutated at that point. -/
def reloadGribFiles (st : HandleState) (reg : GribsData) (openOk : String → Bool) :
    HandleState :=
  let sel := selectLatestGribFiles reg
  let base : HandleState :=
    { waveGrib := none, atmosGribFileData := sel.1, waveGribFileData := sel.2 }
  match sel.1 with
  | some a =>
    if openOk a.path then
      match sel.2 with
      | some w =>
        if openOk w.path then { base with waveGrib := some w.path }
        else { base with waveGrib := some a.path }
      | none => { base with waveGrib := some a.path }
    else base
  | none =>
    match sel.2 with
    | some w => if openOk w.path then { base with waveGrib := some w.path } else base
    | none => base

/-- Embeds `ProcessWeatherData.is_ready` (process_weather_data.py lines
80-82): ready iff the handle slot is open and atmospheric metadata is
present. -/
def isReady (st : HandleState) : Bool :=
  st.waveGrib.isSome && st.atmosGribFileData.isSome

/-- C4 counterexample. A handle is open on `old.grib`; the registry now names
`new.grib`, and opening the new path fails.  After the reload the handle slot
is empty — the old handle was closed BEFORE the replacement was opened, so
there is a window with zero valid handle although an old handle existed. -/
theorem reloadGribFiles_drops_old_handle_on_open_failure :
    (reloadGribFiles
        { waveGrib := some "old.grib"
          atmosGribFileData := some { path := "old.grib", downloadTime := "t0" }
          waveGribFileData := none }
        { atmos := some { path := "new.grib", downloadTime := "t1" }, wave := none }
        (fun _ => false)).waveGrib = none ∧
    ({ waveGrib := some "old.grib"
       atmosGribFileData := some { path := "old.grib", downloadTime := "t0" }
       waveGribFileData := none } : HandleState).waveGrib = some "old.grib" := by
  exact ⟨rfl, rfl⟩

/-- C4 (amended): `_reload_grib_files` closes the previously open handle
unconditionally BEFORE attempting to open the replacement — the reload result
never depends on the previously held handle — and when opening fails the
handle slot is left empty (no handle is served), rather than keeping the old
handle open. -/
theorem reloadGribFiles_closes_old_before_open (st : HandleState) (reg : GribsData)
    (openOk : String → Bool) :
    reloadGribFiles st reg openOk =
      reloadGribFiles
        { waveGrib := none, atmosGribFileData := none, waveGribFileData := none }
        reg openOk ∧
    ((∀ p, openOk p = false) → (reloadGribFiles st reg openOk).waveGrib = none) := by
  constructor
  · rfl
  · intro hfail
    unfold reloadGribFiles
    rcases reg with ⟨atmos, wave⟩
    rcases atmos with _ | a
    · rcases wave with _ | w <;> simp [selectLatestGribFiles, hfail]
    · rcases wave with _ | w <;> simp [selectLatestGribFiles, hfail]

/-- Witness for `reloadGribFiles_closes_old_before_open` at the concrete
state and registry of the counterexample scenario. -/
theorem reloadGribFiles_closes_old_before_open_witness :
    (reloadGribFiles
        { waveGrib := some "old.grib"
          atmosGribFileData := some { path := "old.grib", downloadTime := "t0" }
          waveGribFileData := none }
        { atmos := some { path := "new.grib", downloadTime := "t1" }, wave := none }
        (fun _ => false)).waveGrib = none :=
  (reloadGribFiles_closes_old_before_open
      { waveGrib := some "old.grib"
        atmosGribFileData := some { path := "old.grib", downloadTime := "t0" }
        waveGribFileData := none }
      { atmos := some { path := "new.grib", downloadTime := "t1" }, wave := none }
      (fun _ => false)).2 (fun _ => rfl)

/-! ## Wind and wave processors
(`ProcessWindData.process_data`, `src/app/services/process_wind_data.py`;
`ProcessWaveData.process_data`, `src/app/services/process_wave_data.py`).

Python float values carried in the sliced grids are either ordinary numbers
or NaN; `FV` models this with an explicit NaN constructor, and the arithmetic
used by the processors propagates NaN exactly as IEEE floats do. -/

/-- A Python float measurement value: a real number or NaN. -/
inductive FV where
  | nan : FV
  | num : ℝ → FV

/-- `np.isnan`. -/
def FV.isNan : FV → Bool
  | FV.nan => true
  | FV.num _ => false

/-- Float addition; NaN-propagating. -/
noncomputable def FV.add : FV → FV → FV
  | FV.num a, FV.num b => FV.num (a + b)
  | _, _ => FV.nan

/-- Float squaring (`x ** 2`); NaN-propagating. -/
noncomputable def FV.sq : FV → FV
  | FV.num a => FV.num (a ^ 2)
  | FV.nan => FV.nan

/-- Float square root (`np.sqrt`); NaN-propagating. -/
noncomputable def FV.sqrtF : FV → FV
  | FV.num a => FV.num (Real.sqrt a)
  | FV.nan => FV.nan

/-- Multiplication by a unit-conversion constant (`x * c`); NaN-propagating. -/
noncomputable def FV.scale (c : ℝ) : FV → FV
  | FV.num a => FV.num (a * c)
  | FV.nan => FV.nan

/-- Embeds the wind-speed computation of `ProcessWindData.process_data`
(process_wind_data.py lines 47-54): element-wise
`np.sqrt(u ** 2 + v ** 2) * 1.94384` over the sliced component grids. -/
noncomputable def windSpeedKnotsGrid (u v : List (List FV)) : List (List FV) :=
  (u.zip v).map (fun rowPair =>
    (rowPair.1.zip rowPair.2).map (fun cell =>
      ((cell.1.sq.add cell.2.sq).sqrtF).scale 1.94384))

/-- A `WindDataPoint` record (schemas.py / process_wind_data.py lines 65-69). -/
structure WindDataPoint where
  latitude : ℚ
  longitude : ℚ
  windSpeedKnots : FV

/-- Embeds the point-construction loop of `ProcessWindData.process_data`
(process_wind_data.py lines 60-73): for every `i` in `range(shape[0])` and
`j` in `range(shape[1])` a point is appended — unconditionally, with no NaN
check.  The sliced 2-D coordinate mesh satisfies `lats[i, j] = lats[i]` and
`lons[i, j] = lons[j]` of the 1-D coordinate vectors. -/
def createWindDataPoints (speed : List (List FV)) (lats lons : List ℚ) :
    List WindDataPoint :=
  (List.range speed.length).flatMap (fun i =>
    (List.range (speed.headD []).length).map (fun j =>
      { latitude := lats.getD i 0
        longitude := lons.getD j 0
        windSpeedKnots := (speed.getD i []).getD j FV.nan }))

/-- The wind processor's data-point pipeline: compute the speed grid from the
sliced components, then build one point per grid cell. -/
noncomputable def processWindData (u v : List (List FV)) (lats lons : List ℚ) :
    List WindDataPoint :=
  createWindDataPoints (windSpeedKnotsGrid u v) lats lons

/-- A `WaveDataPoint` record (schemas.py / process_wave_data.py lines 72-78). -/
structure WaveDataPoint where
  latitude : ℚ
  longitude : ℚ
  waveHeight : FV
  wavePeriodS : FV
  waveDirectionDeg : FV

/-- Embeds the unit conversion of `ProcessWaveData.process_data`
(process_wave_data.py lines 55-58): heights are multiplied by 3.28084 when
feet are requested. -/
noncomputable def convertWaveHeightUnit (unit : String) (height : List (List FV)) :
    List (List FV) :=
  if unit = "feet" then height.map (List.map (FV.scale 3.28084)) else height

/-- Embeds the point-construction loop of `ProcessWaveData.process_data`
(process_wave_data.py lines 60-82): for every cell, the point is appended
ONLY if none of height, period, direction is NaN. -/
def createWaveDataPoints (height period dir : List (List FV)) (lats lons : List ℚ) :
    List WaveDataPoint :=
  (List.range height.length).flatMap (fun i =>
    (List.range (height.headD []).length).filterMap (fun j =>
      let h := (height.getD i []).getD j FV.nan
      let p := (period.getD i []).getD j FV.nan
      let d := (dir.getD i []).getD j FV.nan
      if h.isNan || p.isNan || d.isNan then none
      else some { latitude := lats.getD i 0
                  longitude := lons.getD j 0
                  waveHeight := h
                  wavePeriodS := p
                  waveDirectionDeg := d }))

/-- C7 counterexample. A sliced wind grid whose single cell has `u = NaN`
(`v = 0`): the wind processor's loop appends a point for the cell anyway, so
the returned list contains a point whose `wind_speed_knots` is NaN — the wind
processor does not skip not-a-number cells. -/
theorem processWindData_emits_nan_point :
    processWindData [[FV.nan]] [[FV.num 0]] [0] [0] =
      [{ latitude := 0, longitude := 0, windSpeedKnots := FV.nan }] ∧
    FV.nan.isNan = true :=
  ⟨rfl, rfl⟩

theorem sum_map_length_comp {α : Type} (n c : Nat) (g : Nat → List α)
    (hg : ∀ i, (g i).length = c) :
    ((List.range n).map (List.length ∘ g)).sum = n * c := by
  induction n with
  | zero => simp
  | succ m ih =>
    rw [List.range_succ, List.map_append, List.sum_append]
    simp only [List.map_cons, List.map_nil, List.sum_cons, List.sum_nil, Function.comp_apply,
      hg, ih]
    ring

/-- C7 (amended): the wave processor skips every cell in which height, period
or direction is NaN, so no emitted wave point carries a NaN measurement; the
wind processor emits exactly one point per grid cell of the sliced region
(`shape[0] * shape[1]` points), with no NaN skipping. -/
theorem processors_nan_handling (height period dir : List (List FV)) (lats lons : List ℚ)
    (speed : List (List FV)) :
    (∀ p ∈ createWaveDataPoints height period dir lats lons,
        p.waveHeight.isNan = false ∧ p.wavePeriodS.isNan = false ∧
          p.waveDirectionDeg.isNan = false) ∧
    (createWindDataPoints speed lats lons).length =
      speed.length * (speed.headD []).length := by
  constructor
  · intro p hp
    obtain ⟨i, hi, hp⟩ := List.mem_flatMap.mp hp
    obtain ⟨j, hj, hpj⟩ := List.mem_filterMap.mp hp
    dsimp only at hpj
    split at hpj
    · exact absurd hpj (by simp)
    · rename_i hguard
      injection hpj with h
      subst h
      have hguard' := hguard
      simp only [Bool.or_eq_true, not_or, Bool.not_eq_true] at hguard'
      exact ⟨hguard'.1.1, hguard'.1.2, hguard'.2⟩
  · rw [createWindDataPoints, List.length_flatMap]
    exact sum_map_length_comp _ _ _ (fun i => by simp)

/-- Helper: `getD` at an in-range index is a member of the list. -/
theorem getD_mem_of_lt {α : Type} (l : List α) (d : α) {n : Nat} (h : n < l.length) :
    l.getD n d ∈ l := by
  rw [List.getD_eq_getElem?_getD, List.getElem?_eq_getElem h]
  exact List.getElem_mem h

/-- The single wave point produced by the concrete wave grids of the witness
below (cell with `height = 1, period = 2, direction = 3`). -/
def waveWitnessPoint : WaveDataPoint :=
  { latitude := 0
    longitude := 0
    waveHeight := FV.num 1
    wavePeriodS := FV.num 2
    waveDirectionDeg := FV.num 3 }

/-- Witness for `processors_nan_handling`: the wave grid
`height = [[1, NaN]], period = [[2, 2]], dir = [[3, 3]]` yields the single
point for the non-NaN cell, whose measurements are all non-NaN; and the
1-by-1 wind grid yields exactly `1 * 1` points. -/
theorem processors_nan_handling_witness :
    (waveWitnessPoint.waveHeight.isNan = false ∧
      waveWitnessPoint.wavePeriodS.isNan = false ∧
      waveWitnessPoint.waveDirectionDeg.isNan = false) ∧
    (createWindDataPoints [[FV.nan]] [0] [0]).length = 1 * 1 := by
  constructor
  · apply (processors_nan_handling [[FV.num 1, FV.nan]] [[FV.num 2, FV.num 2]]
      [[FV.num 3, FV.num 3]] [0] [0, 1] [[FV.nan]]).1
    have heq : createWaveDataPoints [[FV.num 1, FV.nan]] [[FV.num 2, FV.num 2]]
        [[FV.num 3, FV.num 3]] [0] [0, 1] = [waveWitnessPoint] := rfl
    rw [heq]
    exact List.mem_singleton.mpr rfl
  · exact (processors_nan_handling [] [] [] [0] [0] [[FV.nan]]).2

/-- C9: over sliced wind grids carrying `u = 3` and `v = 4` m/s at every grid
cell (with rectangular `C`-column rows and equally many rows in both
components), every returned point's `wind_speed_knots` is the number
`sqrt(3² + 4²) * 1.94384` — the speed formula applied to the cell's
components — which is within 0.01 of 9.72 knots. -/
theorem processWindData_const34_speed (u v : List (List FV)) (lats lons : List ℚ) (C : Nat)
    (hu : ∀ row ∈ u, ∀ x ∈ row, x = FV.num 3)
    (hv : ∀ row ∈ v, ∀ x ∈ row, x = FV.num 4)
    (hur : ∀ row ∈ u, row.length = C)
    (hvr : ∀ row ∈ v, row.length = C) :
    ∀ p ∈ processWindData u v lats lons,
      ∃ s : ℝ, p.windSpeedKnots = FV.num s ∧
        s = Real.sqrt ((3 : ℝ) ^ 2 + (4 : ℝ) ^ 2) * 1.94384 ∧
        |s - 9.72| < 0.01 := by
  intro p hp
  have hcell : ∀ row ∈ windSpeedKnotsGrid u v, ∀ x ∈ row,
      x = FV.num (Real.sqrt ((3 : ℝ) ^ 2 + (4 : ℝ) ^ 2) * 1.94384) := by
    intro row hrow x hx
    obtain ⟨⟨ru, rv⟩, hzip, rfl⟩ := List.mem_map.mp hrow
    obtain ⟨⟨a, b⟩, hab, rfl⟩ := List.mem_map.mp hx
    have hmemr := List.of_mem_zip hzip
    have hmemc := List.of_mem_zip hab
    have ha := hu ru hmemr.1 a hmemc.1
    have hb := hv rv hmemr.2 b hmemc.2
    dsimp only
    rw [ha, hb]
    rfl
  have hrowlen : ∀ row ∈ windSpeedKnotsGrid u v, row.length = C := by
    intro row hrow
    obtain ⟨⟨ru, rv⟩, hzip, rfl⟩ := List.mem_map.mp hrow
    have hmemr := List.of_mem_zip hzip
    rw [List.length_map, List.length_zip, hur ru hmemr.1, hvr rv hmemr.2, Nat.min_self]
  rw [processWindData] at hp
  obtain ⟨i, hi, hp⟩ := List.mem_flatMap.mp hp
  obtain ⟨j, hj, rfl⟩ := List.mem_map.mp hp
  rw [List.mem_range] at hi hj
  refine ⟨Real.sqrt ((3 : ℝ) ^ 2 + (4 : ℝ) ^ 2) * 1.94384, ?_, rfl, ?_⟩
  · dsimp only
    have hrowmem : (windSpeedKnotsGrid u v).getD i [] ∈ windSpeedKnotsGrid u v :=
      getD_mem_of_lt _ _ hi
    have hne : windSpeedKnotsGrid u v ≠ [] :=
      List.ne_nil_of_length_pos (lt_of_le_of_lt (Nat.zero_le _) hi)
    have hheadmem : (windSpeedKnotsGrid u v).headD [] ∈ windSpeedKnotsGrid u v :=
      headD_mem [] hne
    have hjlen : j < ((windSpeedKnotsGrid u v).getD i []).length := by
      rw [hrowlen _ hrowmem]
      rw [hrowlen _ hheadmem] at hj
      exact hj
    exact hcell _ hrowmem _ (getD_mem_of_lt _ _ hjlen)
  · have h25 : ((3 : ℝ) ^ 2 + (4 : ℝ) ^ 2) = 5 ^ 2 := by norm_num
    rw [h25, Real.sqrt_sq (by norm_num : (0 : ℝ) ≤ 5)]
    rw [abs_sub_lt_iff]
    constructor <;> norm_num

/-- The single wind point produced by the 1-by-1 grid with `u = 3, v = 4`. -/
noncomputable def windWitnessPoint : WindDataPoint :=
  { latitude := 0
    longitude := 0
    windSpeedKnots := (((FV.num 3).sq.add (FV.num 4).sq).sqrtF).scale 1.94384 }

/-- Witness for `processWindData_const34_speed` at the 1-by-1 grid with
`u = 3, v = 4`. -/
theorem processWindData_const34_speed_witness :
    ∃ s : ℝ, windWitnessPoint.windSpeedKnots = FV.num s ∧
      s = Real.sqrt ((3 : ℝ) ^ 2 + (4 : ℝ) ^ 2) * 1.94384 ∧
      |s - 9.72| < 0.01 := by
  have hu : ∀ row ∈ [[FV.num 3]], ∀ x ∈ row, x = FV.num 3 := by
    intro row hr x hx
    rw [List.mem_singleton] at hr
    subst hr
    rw [List.mem_singleton] at hx
    exact hx
  have hv : ∀ row ∈ [[FV.num 4]], ∀ x ∈ row, x = FV.num 4 := by
    intro row hr x hx
    rw [List.mem_singleton] at hr
    subst hr
    rw [List.mem_singleton] at hx
    exact hx
  have hur : ∀ row ∈ [[FV.num 3]], row.length = 1 := by
    intro row hr
    rw [List.mem_singleton] at hr
    subst hr
    rfl
  have hvr : ∀ row ∈ [[FV.num 4]], row.length = 1 := by
    intro row hr
    rw [List.mem_singleton] at hr
    subst hr
    rfl
  have hmem : windWitnessPoint ∈ processWindData [[FV.num 3]] [[FV.num 4]] [0] [0] := by
    have heq : processWindData [[FV.num 3]] [[FV.num 4]] [0] [0] = [windWitnessPoint] := rfl
    rw [heq]
    exact List.mem_singleton.mpr rfl
  exact processWindData_const34_speed [[FV.num 3]] [[FV.num 4]] [0] [0] 1
    hu hv hur hvr _ hmem

/-! ## Wind endpoint error taxonomy
(`get_wind_data`, `src/app/main.py` lines 262-321, and the `BoundingBox`
validators of `src/app/models/schemas.py`). -/

/-- A bounding-box request body. -/
structure BBoxRequest where
  minLat : ℚ
  maxLat : ℚ
  minLon : ℚ
  maxLon : ℚ
  deriving DecidableEq

/-- Embeds the `BoundingBox` field validators (schemas.py lines 22-43):
latitudes within [-90, 90], longitudes within [-180, 180], `max_lat` strictly
greater than `min_lat`, `max_lon` strictly greater than `min_lon`.  FastAPI
runs these before the handler is entered. -/
def validBoundingBox (b : BBoxRequest) : Bool :=
  decide ((-90 ≤ b.minLat ∧ b.minLat ≤ 90) ∧ (-90 ≤ b.maxLat ∧ b.maxLat ≤ 90) ∧
    (-180 ≤ b.minLon ∧ b.minLon ≤ 180) ∧ (-180 ≤ b.maxLon ∧ b.maxLon ≤ 180) ∧
    b.minLat < b.maxLat ∧ b.minLon < b.maxLon)

/-- The distinguishable error outcomes of the wind endpoint: request
validation failure (pydantic, HTTP 422), "GRIB files not yet available"
(HTTP 503), and a processing error (HTTP 500). -/
inductive ApiError where
  | validationError (msg : String)
  | notReady
  | processingError (msg : String)
  deriving DecidableEq

/-- The HTTP status code of each error class (main.py lines 244-259,
281-285, 320-321; 422 is FastAPI's request-validation status). -/
def ApiError.statusCode : ApiError → Nat
  | ApiError.validationError _ => 422
  | ApiError.notReady => 503
  | ApiError.processingError _ => 500

/-- Embeds the `get_wind_data` handler pipeline (main.py lines 262-321):
request validation happens first (before the handler); inside the handler the
readiness check raises the 503 "not ready" condition before any processing;
otherwise the processing result is returned, with any processing exception
mapped to a 500 error. -/
def getWindData {α : Type} (ready : Bool) (req : BBoxRequest)
    (processResult : Except String α) : Except ApiError α :=
  if ¬ validBoundingBox req then
    Except.error (ApiError.validationError "invalid bounding box")
  else if ¬ ready then Except.error ApiError.notReady
  else
    match processResult with
    | Except.ok r => Except.ok r
    | Except.error m => Except.error (ApiError.processingError m)

/-- C8: before any registry publish has ever been observed (the handle state
results from a reload against an empty registry, whatever the open behaviour
and prior state), a valid request to the wind endpoint returns the distinct,
retriable "not ready" condition (503) — not an escaping processing error —
and this condition differs from every validation error and every processing
error. -/
theorem getWindData_not_ready_before_publish {α : Type} (st : HandleState)
    (openOk : String → Bool) (req : BBoxRequest) (processResult : Except String α)
    (hvalid : validBoundingBox req = true) :
    getWindData (isReady (reloadGribFiles st { atmos := none, wave := none } openOk))
        req processResult = Except.error ApiError.notReady ∧
    ApiError.notReady.statusCode = 503 ∧
    (∀ m, ApiError.notReady ≠ ApiError.validationError m) ∧
    (∀ m, ApiError.notReady ≠ ApiError.processingError m) := by
  refine ⟨?_, rfl, fun m h => ApiError.noConfusion h, fun m h => ApiError.noConfusion h⟩
  have hready : isReady (reloadGribFiles st { atmos := none, wave := none } openOk) = false := by
    rfl
  rw [hready]
  simp [getWindData, hvalid]

/-- Witness for `getWindData_not_ready_before_publish` at a fresh handle
state and a valid Caribbean-area box. -/
theorem getWindData_not_ready_before_publish_witness :
    getWindData
        (isReady (reloadGribFiles
          { waveGrib := none, atmosGribFileData := none, waveGribFileData := none }
          { atmos := none, wave := none } (fun _ => true)))
        { minLat := 9, maxLat := 23, minLon := -88, maxLon := -66 }
        (Except.ok (0 : Nat)) = Except.error ApiError.notReady :=
  (getWindData_not_ready_before_publish
    { waveGrib := none, atmosGribFileData := none, waveGribFileData := none }
    (fun _ => true)
    { minLat := 9, maxLat := 23, minLon := -88, maxLon := -66 }
    (Except.ok (0 : Nat)) (by decide)).1
